import Mathlib

/-!
# terraform-provider-nautobot: provider configuration and the manufacturers read

A shallow embedding of `internal/provider/provider.go` (the provider's
`Configure`) and of `internal/provider/data_source_manufacturers.go` (the
data source's `Read`), with the properties of the specification stated over
that embedding.

Conventions of the embedding.

* A Go function that fills a response through a pointer becomes a function
  that returns the response.
* The process environment is an explicit argument.
* Code of other modules that the two files call (the generated Nautobot
  client, the credential constructor, the framework's conversion of the model
  into state) is gathered in one record of parameters, `Lib`; a theorem with a
  `Lib` argument holds for every such record.
* The framework's diagnostics container and the part of `encoding/json` that
  the declared Go types exercise are written out, and so is the behaviour of
  `State.Set` on this model and schema, which the examples use.
-/

namespace Nautobot

/-! ## Diagnostics (terraform-plugin-framework `diag`) -/

inductive Severity where
  | Error
  | Warning
  deriving DecidableEq, Repr

/-- One diagnostic. `path` is the attribute path of an attribute diagnostic as
the framework prints it (`url` for `path.Root("url")`), and `none` for a
diagnostic without a path. -/
structure Diagnostic where
  severity : Severity
  path : Option String
  summary : String
  detail : String
  deriving DecidableEq, Repr

abbrev Diagnostics := List Diagnostic

/-- `Diagnostics.Append`: appends each diagnostic that the collection does not
already contain. -/
def Diagnostics.Append (diags : Diagnostics) (ds : List Diagnostic) : Diagnostics :=
  ds.foldl (fun acc d => if d ∈ acc then acc else acc ++ [d]) diags

/-- `Diagnostics.HasError`: some diagnostic has error severity. -/
def Diagnostics.HasError (diags : Diagnostics) : Bool :=
  diags.any (fun d => d.severity == Severity.Error)

/-- `Diagnostics.AddAttributeError(path.Root(root), summary, detail)`. -/
def Diagnostics.AddAttributeError (diags : Diagnostics) (root summary detail : String) :
    Diagnostics :=
  diags.Append [⟨Severity.Error, some root, summary, detail⟩]

/-- `Diagnostics.AddError(summary, detail)`. -/
def Diagnostics.AddError (diags : Diagnostics) (summary detail : String) : Diagnostics :=
  diags.Append [⟨Severity.Error, none, summary, detail⟩]

/-! ## Attribute values (terraform-plugin-framework `types`) -/

/-- The framework's `types.String`: null, unknown, or a known string. -/
inductive basetypes.StringValue where
  | Null
  | Unknown
  | Known (value : String)
  deriving DecidableEq, Repr

/-- The framework's `types.Int64`. -/
inductive basetypes.Int64Value where
  | Null
  | Unknown
  | Known (value : Int)
  deriving DecidableEq, Repr

def basetypes.StringValue.IsNull : basetypes.StringValue → Bool
  | .Null => true
  | _ => false

def basetypes.StringValue.IsUnknown : basetypes.StringValue → Bool
  | .Unknown => true
  | _ => false

/-- `ValueString`: the known string, and the empty string when the value is
null or unknown. -/
def basetypes.StringValue.ValueString : basetypes.StringValue → String
  | .Known v => v
  | _ => ""

/-- `types.StringValue(v)` builds a known string. -/
def types.StringValue (v : String) : basetypes.StringValue := .Known v

/-- `types.Int64Value(v)` builds a known integer. -/
def types.Int64Value (v : Int) : basetypes.Int64Value := .Known v

/-! ## The provider (`provider.go`) -/

/-- The process environment: a variable is unset or has a value. -/
abbrev Environ := String → Option String

/-- `os.Getenv`: the value of the variable, empty when it is unset. -/
def os.Getenv (env : Environ) (key : String) : String :=
  (env key).getD ""

/-- An `http.Response`, kept by its status code. -/
structure HTTPResponse where
  StatusCode : Nat
  deriving DecidableEq, Repr

/-- A JSON document. A number is kept by its literal: an integer literal by
its value, a literal with a fraction or an exponent by its text. An object is
the list of its members in the order they are written. -/
inductive Json where
  | null
  | bool (b : Bool)
  | int (n : Int)
  | float (lit : String)
  | str (s : String)
  | arr (xs : List Json)
  | obj (kvs : List (String × Json))

/-- A byte string as `json.Unmarshal` sees it: either it is not well-formed
JSON (the scanner's `SyntaxError`, kept by its message), or it is the text of
a JSON document. -/
inductive Bytes where
  | invalid (msg : String)
  | json (v : Json)

/-- The reply of the generated client to the list call: the raw body and the
HTTP response it came with. -/
structure DcimManufacturersListResponse where
  Body : Bytes
  HTTPResponse : HTTPResponse

/-- A Go `map[string]interface{}` field: `none` is the nil map, `some kvs` a
map with the entries `kvs` (one entry a key). -/
abbrev CustomFieldsMap := Option (List (String × Json))

/-- The model of one manufacturer in the state. `O` is the type of the field
`CustomFields`, which the source declares as `types.ObjectType`. -/
structure manufacturersModel (O : Type) where
  ID : basetypes.StringValue
  Created : basetypes.StringValue
  Description : basetypes.StringValue
  CustomFields : O
  DeviceTypeCount : basetypes.Int64Value
  Display : basetypes.StringValue
  InventoryItemCount : basetypes.Int64Value
  LastUpdated : basetypes.StringValue
  Name : basetypes.StringValue
  NotesUrl : basetypes.StringValue
  PlatformCount : basetypes.Int64Value
  Slug : basetypes.StringValue
  Url : basetypes.StringValue

/-- The state of the data source. A Go slice is a list; the nil slice and the
empty slice are both the empty list. -/
structure manufacturersDataSourceModel (O : Type) where
  Manufacturers : List (manufacturersModel O)

/-- Code of other modules that the provider calls.

* `Token` stands for `*SecurityProviderNautobotToken`, `ClientWithResponses`
  and `Client` for the two handles of the generated `go-nautobot` binding.
  The constructors return a value and an error in Go; `Configure` drops the
  error, so each is taken by the value it returns.
* `DcimManufacturersListWithResponse` is the list call of the generated
  client, on a handle and the parameters of the request; its outcome is an
  error (by its text) or a reply. `emptyParams` is the value
  `&nb.DcimManufacturersListParams{}`.
* `ObjectType` stands for `types.ObjectType`, and `ObjectValue` for what the
  source writes as `types.ObjectValue(manufacturer.CustomFields)`. The
  framework has no function of that shape, so no meaning is given to it here.
* `StateSet` is `resp.State.Set`, on the state held so far and the value to
  store: the state afterwards and the diagnostics of the conversion. -/
structure Lib where
  Token : Type
  ClientWithResponses : Type
  Client : Type
  DcimManufacturersListParams : Type
  ObjectType : Type
  NewSecurityProviderNautobotToken : String → Token
  NewClientWithResponses : String → Token → ClientWithResponses
  NewClient : String → Token → Client
  emptyParams : DcimManufacturersListParams
  DcimManufacturersListWithResponse :
    ClientWithResponses → DcimManufacturersListParams →
      Except String DcimManufacturersListResponse
  ObjectValue : CustomFieldsMap → ObjectType
  StateSet : Option (manufacturersDataSourceModel ObjectType) →
    manufacturersDataSourceModel ObjectType →
      Option (manufacturersDataSourceModel ObjectType) × Diagnostics

structure nautobotProviderModel where
  Url : basetypes.StringValue
  Token : basetypes.StringValue
  deriving DecidableEq, Repr

structure apiClient (L : Lib) where
  Client : L.ClientWithResponses
  Server : String
  Token : L.Token
  BaseClient : L.Client

/-- The host's configuration of the provider block. Its schema has the two
optional string attributes `url` and `token`, so it is given by their values. -/
structure Config where
  Raw : nautobotProviderModel
  deriving DecidableEq, Repr

/-- `req.Config.Get(ctx, &config)`: both attributes are strings read into
`types.String` fields, a conversion that keeps null and unknown and reports
nothing. -/
def Config.Get (c : Config) : nautobotProviderModel × Diagnostics :=
  (c.Raw, [])

structure ConfigureRequest where
  Config : Config
  deriving DecidableEq, Repr

structure ConfigureResponse (L : Lib) where
  Diagnostics : Diagnostics
  DataSourceData : Option (apiClient L)
  ResourceData : Option (apiClient L)

/-- `nautobotProvider.Configure`. -/
def Configure (L : Lib) (env : Environ) (req : ConfigureRequest) : ConfigureResponse L :=
  let resp : ConfigureResponse L := ⟨[], none, none⟩
  let (config, diags) := req.Config.Get
  let resp := { resp with Diagnostics := resp.Diagnostics.Append diags }
  if resp.Diagnostics.HasError then resp else
  let resp :=
    if config.Url.IsUnknown then
      { resp with Diagnostics := (resp.Diagnostics.AddAttributeError "url"
          "Nautobot URL was not provided."
          ("The provider cannot create the Nautobot API client as there is an unknown configuration value for the Nautobot API host. " ++
            "Either target apply the source of the value first, set the value statically in the configuration, or use the NAUTOBOT_URL environment variable.")) }
    else resp
  let resp :=
    if config.Token.IsUnknown then
      { resp with Diagnostics := (resp.Diagnostics.AddAttributeError "token"
          "Nautobot Token was not provided - IsUnknown."
          ("The provider cannot create the Nautobot API client as there is an unknown configuration value for the Nautobot token. " ++
            "Either target apply the source of the value first, set the value statically in the configuration, or use the NAUTOBOT_TOKEN environment variable.")) }
    else resp
  if resp.Diagnostics.HasError then resp else
  let url := os.Getenv env "NAUTOBOT_URL"
  let token := os.Getenv env "NAUTOBOT_TOKEN"
  let url := if !config.Url.IsNull then config.Url.ValueString else url
  let token := if !config.Token.IsNull then config.Token.ValueString else token
  let resp :=
    if url == "" then
      { resp with Diagnostics := (resp.Diagnostics.AddAttributeError "url"
          "Nautobot URL was not provided."
          ("The provider cannot create the Nautobot API client as there is an unknown configuration value for the Nautobot API host. " ++
            "Either target apply the source of the value first, set the value statically in the configuration, or use the NAUTOBOT_URL environment variable.")) }
    else resp
  let resp :=
    if token == "" then
      { resp with Diagnostics := (resp.Diagnostics.AddAttributeError "token"
          "Nautobot Token was not provided - is empty string."
          ("The provider cannot create the Nautobot API client as there is an unknown configuration value for the Nautobot token. " ++
            "Either target apply the source of the value first, set the value statically in the configuration, or use the NAUTOBOT_TOKEN environment variable.")) }
    else resp
  if resp.Diagnostics.HasError then resp else
  let client_token := L.NewSecurityProviderNautobotToken token
  let new_client := L.NewClientWithResponses url client_token
  let bc := L.NewClient url client_token
  let client : apiClient L :=
    { Client := new_client, Server := url, Token := client_token, BaseClient := bc }
  { resp with DataSourceData := some client, ResourceData := some client }

/-! ## The manufacturers data source (`data_source_manufacturers.go`) -/

structure manufacturersDataSource (L : Lib) where
  client : apiClient L

structure manufacturersApiModel where
  ID : String
  Created : String
  Description : String
  CustomFields : CustomFieldsMap
  DeviceTypeCount : Int
  Display : String
  InventoryItemCount : Int
  LastUpdated : String
  Name : String
  NotesUrl : String
  PlatformCount : Int
  Slug : String
  Url : String

/-- The envelope of a list reply. `Next` and `Previous` are `interface{}`
fields: they hold whatever JSON value was decoded, `Json.null` for nil. -/
structure apiResponse where
  Next : Json
  Previous : Json
  Count : Int
  Results : List manufacturersApiModel

/-! ### `encoding/json` on the declared types

`json.Unmarshal` first checks that the bytes are well-formed and then decodes
the document into the target value, which it updates in place. A type
mismatch is recorded (the first one is the error returned) and decoding goes
on; since `Read` uses the target only when there is no error, the decoder
below stops at the first mismatch. -/

/-- How an `UnmarshalTypeError` names the JSON value it met. -/
def Json.describe : Json → String
  | .null => "null"
  | .bool _ => "bool"
  | .int _ => "number"
  | .float _ => "number"
  | .str _ => "string"
  | .arr _ => "array"
  | .obj _ => "object"

/-- The text of an `UnmarshalTypeError` inside a struct. -/
def UnmarshalTypeError (value field type : String) : String :=
  "json: cannot unmarshal " ++ value ++ " into Go struct field " ++ field ++ " of type " ++ type

/-- Simple case folding of one rune, on the runes that fold to an ASCII
letter: the upper-case letters, the long s and the Kelvin sign. -/
def foldRune (c : Char) : Char :=
  if c = Char.ofNat 0x17F then 's'
  else if c = Char.ofNat 0x212A then 'k'
  else c.toLower

/-- The case-insensitive comparison of a member name with a field's tag. -/
def equalFold (tag key : String) : Bool :=
  tag.toList.map foldRune == key.toList.map foldRune

/-- The field a member name selects among the fields of a struct, each given
with its `json` tag: the one whose tag is the name exactly, else the first
one whose tag equals it up to case; none when there is none (the member is
then skipped). -/
def findField {α : Type} (fields : List (String × α)) (key : String) : Option α :=
  match fields.find? (fun f => f.1 == key) with
  | some f => some f.2
  | none => (fields.find? (fun f => equalFold f.1 key)).map (fun f => f.2)

/-- Decoding into a `string` field: a JSON string is stored, `null` leaves the
field as it is, anything else is a type mismatch. -/
def storeString (field : String) (cur : String) : Json → Except String String
  | .str s => .ok s
  | .null => .ok cur
  | v => .error (UnmarshalTypeError v.describe field "string")

/-- Decoding into an `int64` field (and into `int`, of the same width here):
an integer literal in range is stored, `null` leaves the field as it is, any
other literal or value is a type mismatch. -/
def storeInt64 (field type : String) (cur : Int) : Json → Except String Int
  | .int n =>
    if -9223372036854775808 ≤ n ∧ n ≤ 9223372036854775807 then .ok n
    else .error (UnmarshalTypeError ("number " ++ toString n) field type)
  | .float lit => .error (UnmarshalTypeError ("number " ++ lit) field type)
  | .null => .ok cur
  | v => .error (UnmarshalTypeError v.describe field type)

/-- Setting one entry of a map. -/
def mapSet (m : List (String × Json)) (k : String) (v : Json) : List (String × Json) :=
  match m with
  | [] => [(k, v)]
  | (k', v') :: rest => if k' = k then (k, v) :: rest else (k', v') :: mapSet rest k v

/-- Decoding into a `map[string]interface{}` field: the members of an object
are set in the map (made first when nil), `null` makes the map nil, anything
else is a type mismatch. -/
def storeMap (field : String) (cur : CustomFieldsMap) : Json → Except String CustomFieldsMap
  | .obj kvs => .ok (some (kvs.foldl (fun m kv => mapSet m kv.1 kv.2) (cur.getD [])))
  | .null => .ok none
  | v => .error (UnmarshalTypeError v.describe field "map[string]interface {}")

/-- The fields of `manufacturersApiModel`. -/
inductive manufacturersApiModel.Field where
  | ID | Created | Description | CustomFields | DeviceTypeCount | Display
  | InventoryItemCount | LastUpdated | Name | NotesUrl | PlatformCount | Slug | Url
  deriving DecidableEq, Repr

/-- The fields of `manufacturersApiModel` with their `json` tags, in
declaration order. -/
def manufacturersApiModel.fields : List (String × manufacturersApiModel.Field) :=
  [("id", .ID), ("created", .Created), ("description", .Description),
   ("custom_fields", .CustomFields), ("devicetype_count", .DeviceTypeCount),
   ("display", .Display), ("inventoryitem_count", .InventoryItemCount),
   ("last_updated", .LastUpdated), ("name", .Name), ("notes_url", .NotesUrl),
   ("platform_count", .PlatformCount), ("slug", .Slug), ("url", .Url)]

/-- The zero value of `manufacturersApiModel`. -/
def manufacturersApiModel.zero : manufacturersApiModel :=
  { ID := "", Created := "", Description := "", CustomFields := none, DeviceTypeCount := 0,
    Display := "", InventoryItemCount := 0, LastUpdated := "", Name := "", NotesUrl := "",
    PlatformCount := 0, Slug := "", Url := "" }

/-- Decoding one member of a record object into the record. -/
def manufacturersApiModel.setMember (m : manufacturersApiModel) (key : String) (v : Json) :
    Except String manufacturersApiModel :=
  match findField manufacturersApiModel.fields key with
  | some .ID => do
    let s ← storeString "apiResponse.results.id" m.ID v
    pure { m with ID := s }
  | some .Created => do
    let s ← storeString "apiResponse.results.created" m.Created v
    pure { m with Created := s }
  | some .Description => do
    let s ← storeString "apiResponse.results.description" m.Description v
    pure { m with Description := s }
  | some .CustomFields => do
    let c ← storeMap "apiResponse.results.custom_fields" m.CustomFields v
    pure { m with CustomFields := c }
  | some .DeviceTypeCount => do
    let n ← storeInt64 "apiResponse.results.devicetype_count" "int64" m.DeviceTypeCount v
    pure { m with DeviceTypeCount := n }
  | some .Display => do
    let s ← storeString "apiResponse.results.display" m.Display v
    pure { m with Display := s }
  | some .InventoryItemCount => do
    let n ← storeInt64 "apiResponse.results.inventoryitem_count" "int64" m.InventoryItemCount v
    pure { m with InventoryItemCount := n }
  | some .LastUpdated => do
    let s ← storeString "apiResponse.results.last_updated" m.LastUpdated v
    pure { m with LastUpdated := s }
  | some .Name => do
    let s ← storeString "apiResponse.results.name" m.Name v
    pure { m with Name := s }
  | some .NotesUrl => do
    let s ← storeString "apiResponse.results.notes_url" m.NotesUrl v
    pure { m with NotesUrl := s }
  | some .PlatformCount => do
    let n ← storeInt64 "apiResponse.results.platform_count" "int64" m.PlatformCount v
    pure { m with PlatformCount := n }
  | some .Slug => do
    let s ← storeString "apiResponse.results.slug" m.Slug v
    pure { m with Slug := s }
  | some .Url => do
    let s ← storeString "apiResponse.results.url" m.Url v
    pure { m with Url := s }
  | _ => pure m

/-- Decoding the members of an object into a record, in the order they are
written. -/
def decodeMembers (m : manufacturersApiModel) :
    List (String × Json) → Except String manufacturersApiModel
  | [] => .ok m
  | (k, v) :: rest => do
    let m ← m.setMember k v
    decodeMembers m rest

/-- Decoding a JSON value into a record: an object sets the fields its
members name, `null` leaves the record as it is, anything else is a type
mismatch. -/
def decodeRecord (m : manufacturersApiModel) : Json → Except String manufacturersApiModel
  | .obj kvs => decodeMembers m kvs
  | .null => .ok m
  | v => .error (UnmarshalTypeError v.describe "apiResponse.results"
      "provider.manufacturersApiModel")

/-- Decoding the elements of an array into a slice of records: element `i` is
decoded into the slice's element `i` when it has one, and into a zero record
when it has not. (A slice that was shortened by an earlier occurrence of the
same member keeps no trace of its former elements here.) -/
def decodeElements : List manufacturersApiModel → List Json →
    Except String (List manufacturersApiModel)
  | _, [] => .ok []
  | cur, x :: xs => do
    let r ← decodeRecord (cur.headD manufacturersApiModel.zero) x
    let rs ← decodeElements cur.tail xs
    pure (r :: rs)

/-- Decoding into the `[]manufacturersApiModel` field. -/
def storeResults (cur : List manufacturersApiModel) :
    Json → Except String (List manufacturersApiModel)
  | .arr xs => decodeElements cur xs
  | .null => .ok []
  | v => .error (UnmarshalTypeError v.describe "apiResponse.results"
      "[]provider.manufacturersApiModel")

/-- The fields of `apiResponse`. -/
inductive apiResponse.Field where
  | Next | Previous | Count | Results
  deriving DecidableEq, Repr

/-- The fields of `apiResponse` with their `json` tags, in declaration order. -/
def apiResponse.fields : List (String × apiResponse.Field) :=
  [("next", .Next), ("previous", .Previous), ("count", .Count), ("results", .Results)]

/-- The zero value of `apiResponse`. -/
def apiResponse.zero : apiResponse :=
  { Next := .null, Previous := .null, Count := 0, Results := [] }

/-- Decoding one member of the envelope object into the envelope. An
`interface{}` field takes any value. -/
def apiResponse.setMember (r : apiResponse) (key : String) (v : Json) :
    Except String apiResponse :=
  match findField apiResponse.fields key with
  | some .Next => pure { r with Next := v }
  | some .Previous => pure { r with Previous := v }
  | some .Count => do
    let n ← storeInt64 "apiResponse.count" "int" r.Count v
    pure { r with Count := n }
  | some .Results => do
    let rs ← storeResults r.Results v
    pure { r with Results := rs }
  | _ => pure r

def decodeEnvelope (r : apiResponse) : List (String × Json) → Except String apiResponse
  | [] => .ok r
  | (k, v) :: rest => do
    let r ← r.setMember k v
    decodeEnvelope r rest

/-- `json.Unmarshal(body, &response)`: the error, or the updated target. -/
def json.Unmarshal (data : Bytes) (response : apiResponse) : Except String apiResponse :=
  match data with
  | .invalid msg => .error msg
  | .json (.obj kvs) => decodeEnvelope response kvs
  | .json .null => .ok response
  | .json v => .error ("json: cannot unmarshal " ++ v.describe ++
      " into Go value of type provider.apiResponse")

/-- The response of a read: the state the host holds for the data source,
`none` until it is set, and the diagnostics. -/
structure ReadResponse (O : Type) where
  State : Option (manufacturersDataSourceModel O)
  Diagnostics : Diagnostics

/-- The error of a failed conversion into state, at the first element of the
list. Its detail is the framework's preamble, without the cause that the
framework goes on to name. -/
def ValueConversionError : Diagnostic :=
  ⟨Severity.Error, some "manufacturers[0].custom_fields", "Value Conversion Error",
    "An unexpected error was encountered trying to convert value. " ++
      "This is always an error in the provider. " ++
      "Please report the following to the provider developer:"⟩

/-- `resp.State.Set(ctx, &state)` as the framework performs it for this model
against this schema. A list without elements converts and is stored. A list
with an element does not convert: the field `CustomFields` of an element is a
`types.ObjectType`, a type and not a value, set against the map attribute
`custom_fields`; the call reports a `Value Conversion Error` and leaves the
state as it was. -/
def State.Set {O : Type} (cur : Option (manufacturersDataSourceModel O))
    (state : manufacturersDataSourceModel O) :
    Option (manufacturersDataSourceModel O) × Diagnostics :=
  match state.Manufacturers with
  | [] => (some state, [])
  | _ :: _ => (cur, [ValueConversionError])

/-- `manufacturersDataSource.Read`. Reading the body through a buffer gives
the body back; the deferred `Close` has no effect on the response. -/
def Read (L : Lib) (d : manufacturersDataSource L) : ReadResponse L.ObjectType :=
  let resp : ReadResponse L.ObjectType := ⟨none, []⟩
  let state : manufacturersDataSourceModel L.ObjectType := ⟨[]⟩
  match L.DcimManufacturersListWithResponse d.client.Client L.emptyParams with
  | .error err =>
    { resp with Diagnostics := resp.Diagnostics.AddError "failed to get manufacturers list" err }
  | .ok rsp =>
    let body := rsp.Body
    let response : apiResponse := apiResponse.zero
    match json.Unmarshal body response with
    | .error err =>
      { resp with Diagnostics := resp.Diagnostics.AddError "Failed to serialize" err }
    | .ok response =>
      let state := response.Results.foldl
        (fun (state : manufacturersDataSourceModel L.ObjectType) manufacturer =>
          let manufacturerState : manufacturersModel L.ObjectType :=
            { ID := types.StringValue manufacturer.ID
              Created := types.StringValue manufacturer.Created
              Description := types.StringValue manufacturer.Description
              CustomFields := L.ObjectValue manufacturer.CustomFields
              DeviceTypeCount := types.Int64Value manufacturer.DeviceTypeCount
              Display := types.StringValue manufacturer.Display
              InventoryItemCount := types.Int64Value manufacturer.InventoryItemCount
              LastUpdated := types.StringValue manufacturer.LastUpdated
              Name := types.StringValue manufacturer.Name
              NotesUrl := types.StringValue manufacturer.NotesUrl
              PlatformCount := types.Int64Value manufacturer.PlatformCount
              Slug := types.StringValue manufacturer.Slug
              Url := types.StringValue manufacturer.Url }
          { state with Manufacturers := state.Manufacturers ++ [manufacturerState] })
        state
      let (st, diags) := L.StateSet resp.State state
      let resp := { resp with State := st }
      let resp := { resp with Diagnostics := resp.Diagnostics.Append diags }
      if resp.Diagnostics.HasError then resp else resp

/-! ### The diagnostics of `Configure`, named -/

def urlDetail : String :=
  "The provider cannot create the Nautobot API client as there is an unknown configuration value for the Nautobot API host. " ++
    "Either target apply the source of the value first, set the value statically in the configuration, or use the NAUTOBOT_URL environment variable."

def tokenDetail : String :=
  "The provider cannot create the Nautobot API client as there is an unknown configuration value for the Nautobot token. " ++
    "Either target apply the source of the value first, set the value statically in the configuration, or use the NAUTOBOT_TOKEN environment variable."

/-- The error on path `url` for an unknown url. -/
def UnknownUrl : Diagnostic :=
  ⟨Severity.Error, some "url", "Nautobot URL was not provided.", urlDetail⟩

/-- The error on path `token` for an unknown token. -/
def UnknownToken : Diagnostic :=
  ⟨Severity.Error, some "token", "Nautobot Token was not provided - IsUnknown.", tokenDetail⟩

/-- The error on path `url` for an empty url. -/
def MissingUrl : Diagnostic :=
  ⟨Severity.Error, some "url", "Nautobot URL was not provided.", urlDetail⟩

/-- The error on path `token` for an empty token. -/
def MissingToken : Diagnostic :=
  ⟨Severity.Error, some "token", "Nautobot Token was not provided - is empty string.", tokenDetail⟩

/-- The resolution rule in the specification's words: the environment
variable when the configured field is null, otherwise the configured value. -/
def specResolve (field : basetypes.StringValue) (env : Environ) (var : String) : String :=
  match field with
  | .Null => (env var).getD ""
  | .Unknown => ""
  | .Known v => v

/-- The diagnostics of the first check, in the specification's words: one
error on `url` if url is unknown, then one on `token` if token is unknown. -/
def unknownDiags (cfg : nautobotProviderModel) : Diagnostics :=
  (if cfg.Url = .Unknown then [UnknownUrl] else []) ++
    (if cfg.Token = .Unknown then [UnknownToken] else [])

/-- The diagnostics of the second check, in the specification's words: one
error on `url` if the resolved url is empty, then one on `token` if the
resolved token is empty. -/
def missingDiags (url token : String) : Diagnostics :=
  (if url = "" then [MissingUrl] else []) ++ (if token = "" then [MissingToken] else [])

/-- The client built from a url and a token. -/
def clientOf (L : Lib) (url token : String) : apiClient L :=
  { Client := L.NewClientWithResponses url (L.NewSecurityProviderNautobotToken token)
    Server := url
    Token := L.NewSecurityProviderNautobotToken token
    BaseClient := L.NewClient url (L.NewSecurityProviderNautobotToken token) }

/-- The number of diagnostics on the attribute path `root`. -/
def countOn (diags : Diagnostics) (root : String) : Nat :=
  (diags.filter (fun d => d.path == some root)).length

/-- The url the specification resolves for a request: `NAUTOBOT_URL` when the
configured url is null, otherwise the configured value. -/
def resolvedUrl (env : Environ) (req : ConfigureRequest) : String :=
  specResolve req.Config.Raw.Url env "NAUTOBOT_URL"

/-- The token the specification resolves for a request: `NAUTOBOT_TOKEN` when
the configured token is null, otherwise the configured value. -/
def resolvedToken (env : Environ) (req : ConfigureRequest) : String :=
  specResolve req.Config.Raw.Token env "NAUTOBOT_TOKEN"

/-- A field is misconfigured, in the specification's words, when it is
unknown or when it resolves (configured value, else environment variable) to
the empty string. -/
def misconfigured (field : basetypes.StringValue) (env : Environ) (var : String) : Prop :=
  field = .Unknown ∨ specResolve field env var = ""

/-- The lift of one decoded record, as the loop of `Read` builds it: every
string field becomes a known string, every count a known integer. -/
def liftRecord (L : Lib) (manufacturer : manufacturersApiModel) :
    manufacturersModel L.ObjectType :=
  { ID := types.StringValue manufacturer.ID
    Created := types.StringValue manufacturer.Created
    Description := types.StringValue manufacturer.Description
    CustomFields := L.ObjectValue manufacturer.CustomFields
    DeviceTypeCount := types.Int64Value manufacturer.DeviceTypeCount
    Display := types.StringValue manufacturer.Display
    InventoryItemCount := types.Int64Value manufacturer.InventoryItemCount
    LastUpdated := types.StringValue manufacturer.LastUpdated
    Name := types.StringValue manufacturer.Name
    NotesUrl := types.StringValue manufacturer.NotesUrl
    PlatformCount := types.Int64Value manufacturer.PlatformCount
    Slug := types.StringValue manufacturer.Slug
    Url := types.StringValue manufacturer.Url }

/-! ### Concrete inputs for the examples -/

/-- A library for the examples: a credential is the token it was built from,
a client handle is the url and the credential it was built from, the list
call has the outcome `reply` whatever its parameters, and `State.Set` is the
framework's. -/
def scriptedLib (reply : Except String DcimManufacturersListResponse) : Lib :=
  { Token := String
    ClientWithResponses := String × String
    Client := String × String
    DcimManufacturersListParams := Unit
    ObjectType := Unit
    NewSecurityProviderNautobotToken := fun t => t
    NewClientWithResponses := fun u t => (u, t)
    NewClient := fun u t => (u, t)
    emptyParams := ()
    DcimManufacturersListWithResponse := fun _ _ => reply
    ObjectValue := fun _ => ()
    StateSet := State.Set }

/-- The environment with no variable set. -/
def envUnset : Environ := fun _ => none

/-- The environment of the happy path: both variables set. -/
def envHappy : Environ := fun k =>
  if k = "NAUTOBOT_URL" then some "https://nb.example.com"
  else if k = "NAUTOBOT_TOKEN" then some "abc"
  else none

/-- A request with the given `url` and `token`. -/
def requestOf (url token : basetypes.StringValue) : ConfigureRequest :=
  ⟨⟨⟨url, token⟩⟩⟩

/-- The members of a record object as the upstream writes them, with the
given id, name and `display` member. -/
def recordMembers (id name : String) (display : Json) : List (String × Json) :=
  [("id", .str id), ("name", .str name), ("slug", .str "acme"), ("description", .str ""),
   ("display", display),
   ("url", .str "https://nb.example.com/api/dcim/manufacturers/11111111-1111-1111-1111-111111111111/"),
   ("notes_url", .str ""), ("created", .str "2024-01-01T00:00:00Z"),
   ("last_updated", .str "2024-01-01T00:00:00Z"), ("devicetype_count", .int 0),
   ("inventoryitem_count", .int 0), ("platform_count", .int 0), ("custom_fields", .obj [])]

/-- The members of a page envelope that come before `results`. -/
def envelopeHead (count : Int) (next : Json) : List (String × Json) :=
  [("count", .int count), ("next", next), ("previous", .null)]

/-- A page envelope. -/
def pageJson (count : Int) (next : Json) (results : List Json) : Json :=
  .obj (envelopeHead count next ++ ("results", .arr results) :: [])

/-- The record of the happy path. -/
def acmeJson : Json :=
  .obj (recordMembers "11111111-1111-1111-1111-111111111111" "Acme" (.str "Acme"))

/-- The record of the happy path, decoded. -/
def acmeRecord : manufacturersApiModel :=
  { ID := "11111111-1111-1111-1111-111111111111", Created := "2024-01-01T00:00:00Z",
    Description := "", CustomFields := some [], DeviceTypeCount := 0, Display := "Acme",
    InventoryItemCount := 0, LastUpdated := "2024-01-01T00:00:00Z", Name := "Acme",
    NotesUrl := "", PlatformCount := 0, Slug := "acme",
    Url := "https://nb.example.com/api/dcim/manufacturers/11111111-1111-1111-1111-111111111111/" }

/-- The page of the happy path, decoded. -/
def happyEnvelope : apiResponse :=
  { Next := .null, Previous := .null, Count := 1, Results := [acmeRecord] }

/-- The same record with `"display": null`. -/
def nullDisplayMembers : List (String × Json) :=
  recordMembers "11111111-1111-1111-1111-111111111111" "Acme" .null

/-- A second record, for a second page. -/
def boltJson : Json :=
  .obj (recordMembers "22222222-2222-2222-2222-222222222222" "Bolt" (.str "Bolt"))

/-- The reply of the list call with a status code and a body. -/
def replyOf (status : Nat) (body : Bytes) : Except String DcimManufacturersListResponse :=
  .ok ⟨body, ⟨status⟩⟩

/-- The data source holding the client that `Configure` exports on the happy
path, over the library whose list call has the outcome `reply`. -/
def dataSourceOf (reply : Except String DcimManufacturersListResponse) :
    manufacturersDataSource (scriptedLib reply) :=
  ⟨clientOf (scriptedLib reply) "https://nb.example.com" "abc"⟩

/-- An upstream with two pages of one record each: the first page has a
non-null `next`. -/
def twoPages : List Json :=
  [pageJson 2 (.str "https://nb.example.com/api/dcim/manufacturers/?limit=1&offset=1") [acmeJson],
   pageJson 2 .null [boltJson]]

/-- An upstream with two pages, the first without records and with a non-null
`next`, the second with one record. -/
def emptyFirstPage : List Json :=
  [pageJson 1 (.str "https://nb.example.com/api/dcim/manufacturers/?limit=1&offset=1") [],
   pageJson 1 .null [boltJson]]

/-- A library whose client handle is the upstream it talks to, given by the
pages it serves. The parameters of the list call are an optional offset, none
in the empty parameters, and the call is answered with the page at the
offset. A handle made by the constructor talks to `pages`. -/
def pagedLib (pages : List Json) : Lib :=
  { Token := String
    ClientWithResponses := List Json
    Client := String × String
    DcimManufacturersListParams := Option Nat
    ObjectType := Unit
    NewSecurityProviderNautobotToken := fun t => t
    NewClientWithResponses := fun _ _ => pages
    NewClient := fun u t => (u, t)
    emptyParams := none
    DcimManufacturersListWithResponse := fun upstream offset =>
      match upstream[offset.getD 0]? with
      | some page => replyOf 200 (.json page)
      | none => .error "no such page"
    ObjectValue := fun _ => ()
    StateSet := State.Set }

/-- The data source over `pagedLib pages` whose client talks to the upstream
`served`. -/
def pagedSource (pages served : List Json) : manufacturersDataSource (pagedLib pages) :=
  ⟨{ Client := served, Server := "https://nb.example.com", Token := "abc",
     BaseClient := ("https://nb.example.com", "abc") }⟩

/-- The records of all pages of an upstream, in upstream order: what the
pagination policy of the specification asks `Read` to publish. -/
def allPagesRecords : List Json → Except String (List manufacturersApiModel)
  | [] => .ok []
  | page :: rest => do
    let response ← json.Unmarshal (.json page) apiResponse.zero
    let more ← allPagesRecords rest
    pure (response.Results ++ more)

/-- The body of an authentication failure, as Nautobot writes it. -/
def invalidTokenJson : Json := .obj [("detail", .str "Invalid token.")]

/-! ## Properties of `Configure` -/

theorem Configure_of_unknown (L : Lib) (env : Environ) (req : ConfigureRequest)
    (h : req.Config.Raw.Url = .Unknown ∨ req.Config.Raw.Token = .Unknown) :
    Configure L env req = ⟨unknownDiags req.Config.Raw, none, none⟩ := by
  obtain ⟨⟨⟨url, token⟩⟩⟩ := req
  cases url <;> cases token <;>
    simp_all [Configure, Config.Get, unknownDiags, Diagnostics.Append, Diagnostics.HasError,
      Diagnostics.AddAttributeError, basetypes.StringValue.IsUnknown, UnknownUrl, UnknownToken,
      urlDetail, tokenDetail]

theorem Configure_of_known (L : Lib) (env : Environ) (req : ConfigureRequest)
    (hu : req.Config.Raw.Url ≠ .Unknown) (ht : req.Config.Raw.Token ≠ .Unknown) :
    Configure L env req =
      if resolvedUrl env req = "" ∨ resolvedToken env req = "" then
        ⟨missingDiags (resolvedUrl env req) (resolvedToken env req), none, none⟩
      else
        ⟨[], some (clientOf L (resolvedUrl env req) (resolvedToken env req)),
          some (clientOf L (resolvedUrl env req) (resolvedToken env req))⟩ := by
  obtain ⟨⟨⟨url, token⟩⟩⟩ := req
  cases url <;> cases token <;> simp at hu ht <;>
    simp only [resolvedUrl, resolvedToken, specResolve, Configure, Config.Get, os.Getenv] <;>
    generalize (env "NAUTOBOT_URL").getD "" = eu <;>
    generalize (env "NAUTOBOT_TOKEN").getD "" = et <;>
    simp [missingDiags, clientOf, Diagnostics.Append,
      Diagnostics.HasError, Diagnostics.AddAttributeError,
      basetypes.StringValue.IsUnknown, basetypes.StringValue.IsNull,
      basetypes.StringValue.ValueString, MissingUrl, MissingToken,
      urlDetail, tokenDetail] <;>
    split_ifs <;> simp_all

/-- C1: whenever `Configure` exports a client (as `DataSourceData` or as
`ResourceData`), that client was built from a url and a token that are both
non-empty strings, and its `Server` is that url. -/
theorem Configure_exports_nonempty (L : Lib) (env : Environ) (req : ConfigureRequest)
    (c : apiClient L)
    (h : (Configure L env req).DataSourceData = some c ∨
      (Configure L env req).ResourceData = some c) :
    ∃ url token, url ≠ "" ∧ token ≠ "" ∧ c = clientOf L url token ∧ c.Server = url := by
  by_cases hk : req.Config.Raw.Url = .Unknown ∨ req.Config.Raw.Token = .Unknown
  · rw [Configure_of_unknown L env req hk] at h
    simp at h
  · rw [not_or] at hk
    rw [Configure_of_known L env req hk.1 hk.2] at h
    split_ifs at h with he
    · simp at h
    · rw [not_or] at he
      refine ⟨_, _, he.1, he.2, ?_, ?_⟩
      · rcases h with h | h <;> simp at h <;> exact h.symm
      · rcases h with h | h <;> simp at h <;> rw [← h] <;> rfl

theorem Configure_exports_nonempty_witness :
    ∃ url token, url ≠ "" ∧ token ≠ "" ∧
      clientOf (scriptedLib (.error "")) "https://nb.example.com" "abc" =
        clientOf (scriptedLib (.error "")) url token ∧
      (clientOf (scriptedLib (.error "")) "https://nb.example.com" "abc").Server = url :=
  Configure_exports_nonempty (scriptedLib (.error "")) envHappy (requestOf .Null .Null)
    (clientOf (scriptedLib (.error "")) "https://nb.example.com" "abc") (Or.inl (by rfl))

/-- C2: when neither field is unknown, `Configure` works on the url and the
token resolved field by field (the environment variable when the configured
field is null, otherwise the configured value, the empty string included): a
client is exported exactly when both are non-empty, it is the client built
from them, so its `Server` is the resolved url and its credential is built
from the resolved token; a field gets a diagnostic exactly when its resolved
value is empty; and a field configured as the empty string blocks the export
whatever the environment holds. -/
theorem Configure_resolves_fields (L : Lib) (env : Environ) (req : ConfigureRequest)
    (hu : req.Config.Raw.Url ≠ .Unknown) (ht : req.Config.Raw.Token ≠ .Unknown) :
    (Configure L env req).DataSourceData =
        (if resolvedUrl env req ≠ "" ∧ resolvedToken env req ≠ "" then
          some (clientOf L (resolvedUrl env req) (resolvedToken env req)) else none) ∧
      (Configure L env req).ResourceData = (Configure L env req).DataSourceData ∧
      (∀ c, (Configure L env req).DataSourceData = some c →
        c.Server = resolvedUrl env req ∧
          c.Token = L.NewSecurityProviderNautobotToken (resolvedToken env req)) ∧
      (0 < countOn (Configure L env req).Diagnostics "url" ↔ resolvedUrl env req = "") ∧
      (0 < countOn (Configure L env req).Diagnostics "token" ↔ resolvedToken env req = "") ∧
      (req.Config.Raw.Url = .Known "" ∨ req.Config.Raw.Token = .Known "" →
        (Configure L env req).DataSourceData = none) := by
  have hres := Configure_of_known L env req hu ht
  have hk : req.Config.Raw.Url = .Known "" ∨ req.Config.Raw.Token = .Known "" →
      resolvedUrl env req = "" ∨ resolvedToken env req = "" := by
    rintro (h | h)
    · left; simp [resolvedUrl, specResolve, h]
    · right; simp [resolvedToken, specResolve, h]
  by_cases h1 : resolvedUrl env req = "" <;> by_cases h2 : resolvedToken env req = "" <;>
    simp [h1, h2] at hres hk <;>
    simp [hres, h1, h2, hk, missingDiags, countOn, MissingUrl, MissingToken, clientOf]

theorem Configure_resolves_fields_witness :
    (Configure (scriptedLib (.error "")) envHappy (requestOf (.Known "https://cfg") .Null)).DataSourceData
        = some (clientOf (scriptedLib (.error "")) "https://cfg" "abc") ∧
      (Configure (scriptedLib (.error "")) envHappy (requestOf (.Known "") .Null)).DataSourceData
        = none :=
  ⟨(Configure_resolves_fields (scriptedLib (.error "")) envHappy
      (requestOf (.Known "https://cfg") .Null) (by decide) (by decide)).1,
    (Configure_resolves_fields (scriptedLib (.error "")) envHappy
      (requestOf (.Known "") .Null) (by decide) (by decide)).2.2.2.2.2 (Or.inl rfl)⟩

/-- C3: when url or token is unknown, `Configure` exports no client and its
diagnostics are exactly one error on path `url` if url is unknown followed by
one error on path `token` if token is unknown; the error for an empty token
is not among them, and the whole response is the same in every environment. -/
theorem Configure_unknown_halts (L : Lib) (env : Environ) (req : ConfigureRequest)
    (h : req.Config.Raw.Url = .Unknown ∨ req.Config.Raw.Token = .Unknown) :
    (Configure L env req).Diagnostics = unknownDiags req.Config.Raw ∧
      (Configure L env req).DataSourceData = none ∧
      (Configure L env req).ResourceData = none ∧
      countOn (Configure L env req).Diagnostics "url" =
        (if req.Config.Raw.Url = .Unknown then 1 else 0) ∧
      countOn (Configure L env req).Diagnostics "token" =
        (if req.Config.Raw.Token = .Unknown then 1 else 0) ∧
      MissingToken ∉ (Configure L env req).Diagnostics ∧
      ∀ env', Configure L env' req = Configure L env req := by
  have hall : ∀ e, Configure L e req = ⟨unknownDiags req.Config.Raw, none, none⟩ :=
    fun e => Configure_of_unknown L e req h
  refine ⟨by rw [hall], by rw [hall], by rw [hall], ?_, ?_, ?_, fun e => by rw [hall, hall]⟩ <;>
    rw [hall] <;>
    by_cases h1 : req.Config.Raw.Url = .Unknown <;>
    by_cases h2 : req.Config.Raw.Token = .Unknown <;>
    simp [unknownDiags, countOn, UnknownUrl, UnknownToken, MissingToken, h1, h2]

theorem Configure_unknown_halts_witness :
    (Configure (scriptedLib (.error "")) envHappy (requestOf .Unknown .Unknown)).Diagnostics
        = [UnknownUrl, UnknownToken] ∧
      (Configure (scriptedLib (.error "")) envHappy (requestOf .Unknown .Unknown)).DataSourceData
        = none :=
  ⟨(Configure_unknown_halts (scriptedLib (.error "")) envHappy (requestOf .Unknown .Unknown)
      (Or.inl rfl)).1,
    (Configure_unknown_halts (scriptedLib (.error "")) envHappy (requestOf .Unknown .Unknown)
      (Or.inl rfl)).2.1⟩

/-- C4: when neither field is unknown, the diagnostics of `Configure` are
exactly the error on path `url` if the resolved url is empty followed by the
error on path `token` if the resolved token is empty, and a client is exported
if and only if that list is empty. -/
theorem Configure_missing_diagnostics (L : Lib) (env : Environ) (req : ConfigureRequest)
    (hu : req.Config.Raw.Url ≠ .Unknown) (ht : req.Config.Raw.Token ≠ .Unknown) :
    (Configure L env req).Diagnostics =
        missingDiags (resolvedUrl env req) (resolvedToken env req) ∧
      ((Configure L env req).Diagnostics = [MissingUrl, MissingToken] ↔
        resolvedUrl env req = "" ∧ resolvedToken env req = "") ∧
      ((Configure L env req).Diagnostics = [MissingUrl] ↔
        resolvedUrl env req = "" ∧ resolvedToken env req ≠ "") ∧
      ((Configure L env req).Diagnostics = [MissingToken] ↔
        resolvedUrl env req ≠ "" ∧ resolvedToken env req = "") ∧
      ((Configure L env req).DataSourceData.isSome ↔ (Configure L env req).Diagnostics = []) ∧
      ((Configure L env req).ResourceData.isSome ↔ (Configure L env req).Diagnostics = []) := by
  have hres := Configure_of_known L env req hu ht
  by_cases h1 : resolvedUrl env req = "" <;> by_cases h2 : resolvedToken env req = "" <;>
    simp [h1, h2] at hres <;>
    simp [hres, h1, h2, missingDiags, MissingUrl, MissingToken]

theorem Configure_missing_diagnostics_witness :
    (Configure (scriptedLib (.error "")) envUnset
        (requestOf (.Known "https://x") .Null)).Diagnostics = [MissingToken] ∧
      MissingToken.path = some "token" ∧
      (Configure (scriptedLib (.error "")) envUnset
        (requestOf (.Known "https://x") .Null)).DataSourceData.isSome = false := by
  have h := Configure_missing_diagnostics (scriptedLib (.error "")) envUnset
    (requestOf (.Known "https://x") .Null) (by decide) (by decide)
  refine ⟨h.1, rfl, ?_⟩
  have hd := h.2.2.2.2.1
  rw [h.1] at hd
  cases hs : (Configure (scriptedLib (.error "")) envUnset
      (requestOf (.Known "https://x") .Null)).DataSourceData.isSome
  · rfl
  · exact absurd (hd.1 hs) (by decide)

/-- C10, as stated, fails: with url unknown, token null and `NAUTOBOT_TOKEN`
unset, both fields are misconfigured, yet the diagnostics are the single error
on path `url`, with no entry on path `token`. -/
theorem Configure_one_pass_counterexample :
    misconfigured (requestOf .Unknown .Null).Config.Raw.Url envUnset "NAUTOBOT_URL" ∧
      misconfigured (requestOf .Unknown .Null).Config.Raw.Token envUnset "NAUTOBOT_TOKEN" ∧
      (Configure (scriptedLib (.error "")) envUnset (requestOf .Unknown .Null)).Diagnostics
        = [UnknownUrl] ∧
      countOn (Configure (scriptedLib (.error "")) envUnset
        (requestOf .Unknown .Null)).Diagnostics "token" = 0 :=
  ⟨Or.inl rfl, Or.inr rfl, rfl, rfl⟩

/-- C10, amended: `Configure` accumulates diagnostics within each of its two
checks and stops between them. Every unknown field gets exactly one entry;
when no field is unknown, every field that resolves to the empty string gets
exactly one entry; and when one field is unknown, the other field gets no
entry unless it is unknown too, whatever it would resolve to. -/
theorem Configure_accumulates_per_check (L : Lib) (env : Environ) (req : ConfigureRequest) :
    (req.Config.Raw.Url = .Unknown → countOn (Configure L env req).Diagnostics "url" = 1) ∧
      (req.Config.Raw.Token = .Unknown →
        countOn (Configure L env req).Diagnostics "token" = 1) ∧
      (req.Config.Raw.Url ≠ .Unknown → req.Config.Raw.Token ≠ .Unknown →
        (resolvedUrl env req = "" → countOn (Configure L env req).Diagnostics "url" = 1) ∧
        (resolvedToken env req = "" →
          countOn (Configure L env req).Diagnostics "token" = 1)) ∧
      (req.Config.Raw.Url = .Unknown → req.Config.Raw.Token ≠ .Unknown →
        countOn (Configure L env req).Diagnostics "token" = 0) ∧
      (req.Config.Raw.Token = .Unknown → req.Config.Raw.Url ≠ .Unknown →
        countOn (Configure L env req).Diagnostics "url" = 0) := by
  refine ⟨fun h => ?_, fun h => ?_, fun hu ht => ?_, fun h h' => ?_, fun h h' => ?_⟩
  · rw [Configure_of_unknown L env req (Or.inl h)]
    by_cases h2 : req.Config.Raw.Token = .Unknown <;>
      simp [unknownDiags, countOn, UnknownUrl, UnknownToken, h, h2]
  · rw [Configure_of_unknown L env req (Or.inr h)]
    by_cases h1 : req.Config.Raw.Url = .Unknown <;>
      simp [unknownDiags, countOn, UnknownUrl, UnknownToken, h, h1]
  · rw [Configure_of_known L env req hu ht]
    by_cases h1 : resolvedUrl env req = "" <;> by_cases h2 : resolvedToken env req = "" <;>
      simp [h1, h2, missingDiags, countOn, MissingUrl, MissingToken]
  · rw [Configure_of_unknown L env req (Or.inl h)]
    simp [unknownDiags, countOn, UnknownUrl, h, h']
  · rw [Configure_of_unknown L env req (Or.inr h)]
    simp [unknownDiags, countOn, UnknownToken, h, h']

theorem Configure_accumulates_per_check_witness :
    countOn (Configure (scriptedLib (.error "")) envUnset
        (requestOf .Unknown .Unknown)).Diagnostics "url" = 1 ∧
      countOn (Configure (scriptedLib (.error "")) envUnset
        (requestOf .Unknown .Unknown)).Diagnostics "token" = 1 ∧
      countOn (Configure (scriptedLib (.error "")) envUnset
        (requestOf .Null .Null)).Diagnostics "url" = 1 ∧
      countOn (Configure (scriptedLib (.error "")) envUnset
        (requestOf .Null .Null)).Diagnostics "token" = 1 :=
  ⟨(Configure_accumulates_per_check (scriptedLib (.error "")) envUnset
      (requestOf .Unknown .Unknown)).1 rfl,
    (Configure_accumulates_per_check (scriptedLib (.error "")) envUnset
      (requestOf .Unknown .Unknown)).2.1 rfl,
    ((Configure_accumulates_per_check (scriptedLib (.error "")) envUnset
      (requestOf .Null .Null)).2.2.1 (by decide) (by decide)).1 rfl,
    ((Configure_accumulates_per_check (scriptedLib (.error "")) envUnset
      (requestOf .Null .Null)).2.2.1 (by decide) (by decide)).2 rfl⟩


/-! ## Properties of `Read` -/

theorem foldl_append_lift (L : Lib) (rs : List manufacturersApiModel)
    (st : manufacturersDataSourceModel L.ObjectType) :
    rs.foldl (fun (state : manufacturersDataSourceModel L.ObjectType) manufacturer =>
        ({ state with Manufacturers := state.Manufacturers ++ [liftRecord L manufacturer] } :
          manufacturersDataSourceModel L.ObjectType)) st
      = ⟨st.Manufacturers ++ rs.map (liftRecord L)⟩ := by
  induction rs generalizing st with
  | nil => simp
  | cons r rs ih => simp [ih]

theorem Read_call_error (L : Lib) (d : manufacturersDataSource L) (e : String)
    (hcall : L.DcimManufacturersListWithResponse d.client.Client L.emptyParams = .error e) :
    Read L d = ⟨none, [⟨Severity.Error, none, "failed to get manufacturers list", e⟩]⟩ := by
  simp [Read, hcall, Diagnostics.AddError, Diagnostics.Append]

theorem Read_decode_error (L : Lib) (d : manufacturersDataSource L)
    (rsp : DcimManufacturersListResponse) (e : String)
    (hcall : L.DcimManufacturersListWithResponse d.client.Client L.emptyParams = .ok rsp)
    (hdec : json.Unmarshal rsp.Body apiResponse.zero = .error e) :
    Read L d = ⟨none, [⟨Severity.Error, none, "Failed to serialize", e⟩]⟩ := by
  simp [Read, hcall, hdec, Diagnostics.AddError, Diagnostics.Append]

theorem Read_decoded (L : Lib) (d : manufacturersDataSource L)
    (rsp : DcimManufacturersListResponse) (response : apiResponse)
    (hcall : L.DcimManufacturersListWithResponse d.client.Client L.emptyParams = .ok rsp)
    (hdec : json.Unmarshal rsp.Body apiResponse.zero = .ok response) :
    Read L d =
      ⟨(L.StateSet none ⟨response.Results.map (liftRecord L)⟩).1,
        Diagnostics.Append [] (L.StateSet none ⟨response.Results.map (liftRecord L)⟩).2⟩ := by
  have h := foldl_append_lift L response.Results ⟨[]⟩
  simp only [liftRecord] at h
  simp [Read, hcall, hdec, h, liftRecord]

theorem setMember_display (m m' : manufacturersApiModel) (k : String) (v : Json)
    (h : m.setMember k v = .ok m')
    (hnull : findField manufacturersApiModel.fields k = some .Display → v = .null) :
    m'.Display = m.Display := by
  unfold manufacturersApiModel.setMember at h
  split at h
  case h_6 heq =>
    have hv := hnull heq
    subst hv
    simp only [storeString, bind, Except.bind, pure, Except.pure] at h
    injection h with h
    rw [← h]
  case h_14 =>
    injection h with h
    rw [← h]
  all_goals
    simp only [bind, Except.bind, pure, Except.pure] at h
    split at h
    · cases h
    · injection h with h
      rw [← h]

theorem decodeMembers_display (kvs : List (String × Json)) (m m' : manufacturersApiModel)
    (h : decodeMembers m kvs = .ok m')
    (hnull : ∀ kv ∈ kvs, findField manufacturersApiModel.fields kv.1 = some .Display →
      kv.2 = .null) :
    m'.Display = m.Display := by
  induction kvs generalizing m with
  | nil =>
    simp only [decodeMembers] at h
    injection h with h
    rw [h]
  | cons kv rest ih =>
    obtain ⟨k, v⟩ := kv
    simp only [decodeMembers, bind, Except.bind] at h
    split at h
    · cases h
    · rename_i m1 h1
      have e1 := setMember_display m m1 k v h1 (hnull (k, v) (List.mem_cons_self _ _))
      have e2 := ih m1 h (fun kv hkv => hnull kv (List.mem_cons_of_mem _ hkv))
      rw [e2, e1]

theorem decodeElements_length (xs : List Json) (cur rs : List manufacturersApiModel)
    (h : decodeElements cur xs = .ok rs) : rs.length = xs.length := by
  induction xs generalizing cur rs with
  | nil =>
    simp only [decodeElements] at h
    injection h with h
    rw [← h]
    rfl
  | cons x xs ih =>
    simp only [decodeElements, bind, Except.bind, pure, Except.pure] at h
    split at h
    · cases h
    · split at h
      · cases h
      · rename_i rs1 h2
        injection h with h
        rw [← h, List.length_cons, List.length_cons, ih _ _ h2]

theorem decodeElements_fresh (xs : List Json) (rs : List manufacturersApiModel)
    (h : decodeElements [] xs = .ok rs) (i : Nat) (x : Json) (hx : xs[i]? = some x) :
    ∃ r, rs[i]? = some r ∧ decodeRecord manufacturersApiModel.zero x = .ok r := by
  induction xs generalizing rs i with
  | nil => simp at hx
  | cons y ys ih =>
    simp only [decodeElements, bind, Except.bind, pure, Except.pure, List.headD_nil,
      List.tail_nil] at h
    split at h
    · cases h
    · rename_i r1 h1
      split at h
      · cases h
      · rename_i rs1 h2
        injection h with h
        subst h
        cases i with
        | zero =>
          simp only [List.getElem?_cons_zero, Option.some.injEq] at hx
          subst hx
          exact ⟨r1, by simp, h1⟩
        | succ j =>
          simp only [List.getElem?_cons_succ] at hx
          obtain ⟨r, hr, hd⟩ := ih rs1 h2 j hx
          exact ⟨r, by simpa using hr, hd⟩

theorem setMember_results (r r' : apiResponse) (k : String) (v : Json)
    (h : r.setMember k v = .ok r')
    (hk : findField apiResponse.fields k ≠ some .Results) :
    r'.Results = r.Results := by
  unfold apiResponse.setMember at h
  split at h
  case h_4 heq => exact absurd heq hk
  case h_3 =>
    simp only [bind, Except.bind, pure, Except.pure] at h
    split at h
    · cases h
    · injection h with h
      rw [← h]
  all_goals
    injection h with h
    rw [← h]

theorem decodeEnvelope_results (kvs : List (String × Json)) (r r' : apiResponse)
    (h : decodeEnvelope r kvs = .ok r')
    (hk : ∀ kv ∈ kvs, findField apiResponse.fields kv.1 ≠ some .Results) :
    r'.Results = r.Results := by
  induction kvs generalizing r with
  | nil =>
    simp only [decodeEnvelope] at h
    injection h with h
    rw [h]
  | cons kv rest ih =>
    obtain ⟨k, v⟩ := kv
    simp only [decodeEnvelope, bind, Except.bind] at h
    split at h
    · cases h
    · rename_i r1 h1
      have e1 := setMember_results r r1 k v h1 (hk (k, v) (List.mem_cons_self _ _))
      have e2 := ih r1 h (fun kv hkv => hk kv (List.mem_cons_of_mem _ hkv))
      rw [e2, e1]

theorem decodeEnvelope_append (pre post : List (String × Json)) (r r' : apiResponse)
    (h : decodeEnvelope r (pre ++ post) = .ok r') :
    ∃ r1, decodeEnvelope r pre = .ok r1 ∧ decodeEnvelope r1 post = .ok r' := by
  induction pre generalizing r with
  | nil => exact ⟨r, rfl, h⟩
  | cons kv rest ih =>
    obtain ⟨k, v⟩ := kv
    simp only [List.cons_append, decodeEnvelope, bind, Except.bind] at h ⊢
    split at h
    · cases h
    · exact ih _ h

/-- C5, on the code: on the happy path the call succeeds, the body decodes and
the loop builds the one record with its name and its id, but `State.Set` does
not convert a list with an element: `Read` publishes no state and reports a
`Value Conversion Error`. -/
theorem Read_happy_path_not_published :
    json.Unmarshal (.json (pageJson 1 .null [acmeJson])) apiResponse.zero = .ok happyEnvelope ∧
      happyEnvelope.Results.map
          (fun r => ((liftRecord (scriptedLib (replyOf 200 (.json (pageJson 1 .null [acmeJson])))) r).Name,
            (liftRecord (scriptedLib (replyOf 200 (.json (pageJson 1 .null [acmeJson])))) r).ID))
        = [(basetypes.StringValue.Known "Acme",
            basetypes.StringValue.Known "11111111-1111-1111-1111-111111111111")] ∧
      (Read (scriptedLib (replyOf 200 (.json (pageJson 1 .null [acmeJson]))))
        (dataSourceOf (replyOf 200 (.json (pageJson 1 .null [acmeJson]))))).State.isSome = false ∧
      (Read (scriptedLib (replyOf 200 (.json (pageJson 1 .null [acmeJson]))))
        (dataSourceOf (replyOf 200 (.json (pageJson 1 .null [acmeJson]))))).Diagnostics.map
          (fun diag => (diag.severity, diag.summary))
        = [(Severity.Error, "Value Conversion Error")] :=
  ⟨rfl, rfl, rfl, rfl⟩

/-- C6, as stated, fails: for the page whose one record has `"display": null`,
the record that `Read` builds has `display` equal to the known empty string,
which is not the null value; and on this page `Read` publishes no state and
reports an error. -/
theorem Read_null_display_counterexample :
    (json.Unmarshal (.json (pageJson 1 .null [.obj nullDisplayMembers]))
        apiResponse.zero).toOption.map
        (fun r => r.Results.map (fun m =>
          (liftRecord (scriptedLib (replyOf 200 (.json (pageJson 1 .null [.obj nullDisplayMembers]))))
            m).Display))
        = some [basetypes.StringValue.Known ""] ∧
      basetypes.StringValue.Known "" ≠ basetypes.StringValue.Null ∧
      (Read (scriptedLib (replyOf 200 (.json (pageJson 1 .null [.obj nullDisplayMembers]))))
        (dataSourceOf (replyOf 200 (.json (pageJson 1 .null [.obj nullDisplayMembers]))))
      ).State.isSome = false ∧
      (Read (scriptedLib (replyOf 200 (.json (pageJson 1 .null [.obj nullDisplayMembers]))))
        (dataSourceOf (replyOf 200 (.json (pageJson 1 .null [.obj nullDisplayMembers]))))
      ).Diagnostics.map (fun diag => (diag.severity, diag.summary))
        = [(Severity.Error, "Value Conversion Error")] :=
  ⟨rfl, by decide, rfl, rfl⟩

/-- C6, amended: a record whose `display` member is `null` is decoded with
`display` the empty string and lifted with `display` the known empty string.
For every reply whose body is an envelope object with one `results` member,
an array, and that decodes: if the element at index `i` is an object in which
every member that selects the field `display` is `null`, then the list that
`Read` hands to `State.Set` is the lift of the decoded records, as long as
the array, and its entry at `i` has `display` equal to the known empty
string, not the null value. -/
theorem Read_null_display_is_empty_string (L : Lib) (d : manufacturersDataSource L)
    (rsp : DcimManufacturersListResponse) (response : apiResponse)
    (pre post kvs : List (String × Json)) (recs : List Json) (i : Nat)
    (hcall : L.DcimManufacturersListWithResponse d.client.Client L.emptyParams = .ok rsp)
    (hbody : rsp.Body = .json (.obj (pre ++ ("results", .arr recs) :: post)))
    (hpre : ∀ kv ∈ pre, findField apiResponse.fields kv.1 ≠ some .Results)
    (hpost : ∀ kv ∈ post, findField apiResponse.fields kv.1 ≠ some .Results)
    (hrec : recs[i]? = some (.obj kvs))
    (hnull : ∀ kv ∈ kvs, findField manufacturersApiModel.fields kv.1 = some .Display →
      kv.2 = .null)
    (hdec : json.Unmarshal rsp.Body apiResponse.zero = .ok response) :
    Read L d =
        ⟨(L.StateSet none ⟨response.Results.map (liftRecord L)⟩).1,
          Diagnostics.Append [] (L.StateSet none ⟨response.Results.map (liftRecord L)⟩).2⟩ ∧
      (response.Results.map (liftRecord L)).length = recs.length ∧
      ∃ r : manufacturersApiModel, response.Results[i]? = some r ∧ r.Display = "" ∧
        (response.Results.map (liftRecord L))[i]? = some (liftRecord L r) ∧
        (liftRecord L r).Display = .Known "" ∧ (liftRecord L r).Display ≠ .Null := by
  refine ⟨Read_decoded L d rsp response hcall hdec, ?_⟩
  rw [hbody] at hdec
  simp only [json.Unmarshal] at hdec
  obtain ⟨r1, h1, h2⟩ := decodeEnvelope_append pre _ _ _ hdec
  have e1 : r1.Results = [] := decodeEnvelope_results pre _ _ h1 hpre
  simp only [decodeEnvelope, bind, Except.bind] at h2
  split at h2
  · cases h2
  · rename_i r2 h3
    have e2 : response.Results = r2.Results := decodeEnvelope_results post _ _ h2 hpost
    have hf : findField apiResponse.fields "results" = some .Results := by decide
    simp only [apiResponse.setMember, hf, storeResults, e1, bind, Except.bind, pure,
      Except.pure] at h3
    split at h3
    · cases h3
    · rename_i rs h4
      injection h3 with h3
      have e3 : response.Results = rs := by rw [e2, ← h3]
      obtain ⟨r, hr, hdr⟩ := decodeElements_fresh recs rs h4 i (.obj kvs) hrec
      have hdisp : r.Display = "" := decodeMembers_display kvs _ r hdr hnull
      refine ⟨?_, r, ?_, hdisp, ?_, ?_, ?_⟩
      · simp [e3, decodeElements_length recs _ rs h4]
      · rw [e3, hr]
      · simp [e3, hr]
      · simp [liftRecord, types.StringValue, hdisp]
      · simp [liftRecord, types.StringValue]

theorem Read_null_display_is_empty_string_witness :
    (([{ acmeRecord with Display := "" }] : List manufacturersApiModel).map
        (liftRecord (scriptedLib (replyOf 200 (.json (pageJson 1 .null [.obj nullDisplayMembers]))))
        )).length = [Json.obj nullDisplayMembers].length ∧
      ∃ r : manufacturersApiModel,
        ([{ acmeRecord with Display := "" }] : List manufacturersApiModel)[0]? = some r ∧
        r.Display = "" ∧
        (([{ acmeRecord with Display := "" }] : List manufacturersApiModel).map
          (liftRecord (scriptedLib (replyOf 200 (.json (pageJson 1 .null [.obj nullDisplayMembers]))))
          ))[0]? = some
            (liftRecord (scriptedLib (replyOf 200 (.json (pageJson 1 .null [.obj nullDisplayMembers]))))
              r) ∧
        (liftRecord (scriptedLib (replyOf 200 (.json (pageJson 1 .null [.obj nullDisplayMembers]))))
          r).Display = .Known "" ∧
        (liftRecord (scriptedLib (replyOf 200 (.json (pageJson 1 .null [.obj nullDisplayMembers]))))
          r).Display ≠ .Null :=
  (Read_null_display_is_empty_string
    (scriptedLib (replyOf 200 (.json (pageJson 1 .null [.obj nullDisplayMembers]))))
    (dataSourceOf (replyOf 200 (.json (pageJson 1 .null [.obj nullDisplayMembers]))))
    ⟨.json (pageJson 1 .null [.obj nullDisplayMembers]), ⟨200⟩⟩
    { happyEnvelope with Results := [{ acmeRecord with Display := "" }] }
    (envelopeHead 1 .null) [] nullDisplayMembers [.obj nullDisplayMembers] 0
    rfl rfl (by decide) (by decide) rfl
    (by
      intro kv hkv hf
      simp only [nullDisplayMembers, recordMembers, List.mem_cons, List.mem_singleton,
        List.not_mem_nil, or_false] at hkv
      rcases hkv with h | h | h | h | h | h | h | h | h | h | h | h | h <;> subst h <;>
        first
          | rfl
          | exact absurd hf (by decide))
    rfl).2

/-- C7, as stated, fails. Against an upstream of two pages whose first page has
a non-null `next`, the records of all pages are two, `Read` publishes no
state, and its response is the one it gives against the upstream that has the
first page only. Against an upstream whose first page has a non-null `next`
and no record, and whose second page has one record, `Read` reports nothing
and publishes the empty list. -/
theorem Read_pagination_counterexample :
    (json.Unmarshal (.json (pageJson 2
        (.str "https://nb.example.com/api/dcim/manufacturers/?limit=1&offset=1") [acmeJson]))
        apiResponse.zero).toOption.map (fun r => r.Next.describe) = some "string" ∧
      (allPagesRecords twoPages).toOption.map (fun rs => rs.map (fun r => r.Name))
        = some ["Acme", "Bolt"] ∧
      (Read (pagedLib twoPages) (pagedSource twoPages twoPages)).State.isSome = false ∧
      Read (pagedLib twoPages) (pagedSource twoPages twoPages)
        = Read (pagedLib twoPages) (pagedSource twoPages (twoPages.take 1)) ∧
      (allPagesRecords emptyFirstPage).toOption.map (fun rs => rs.map (fun r => r.Name))
        = some ["Bolt"] ∧
      (Read (pagedLib emptyFirstPage) (pagedSource emptyFirstPage emptyFirstPage)).State.map
        (fun st => st.Manufacturers.map (fun m => m.Name)) = some [] ∧
      (Read (pagedLib emptyFirstPage) (pagedSource emptyFirstPage emptyFirstPage)).Diagnostics
        = [] :=
  ⟨rfl, rfl, rfl, rfl, rfl, rfl, rfl⟩

/-- C7, amended: `Read` makes one list call, with empty parameters, and never
follows `next`. When that call is answered with a page that decodes, the list
`Read` hands to `State.Set` is the lift of that page's records, in upstream
order; the response is the same for every client that answers the call with
empty parameters alike, whatever it answers to any other request; and it is
the same for every page with the same `results`, whatever its `next`,
`previous` and `count`. -/
theorem Read_uses_one_page (L : Lib) (d : manufacturersDataSource L)
    (rsp : DcimManufacturersListResponse) (response : apiResponse)
    (hcall : L.DcimManufacturersListWithResponse d.client.Client L.emptyParams = .ok rsp)
    (hdec : json.Unmarshal rsp.Body apiResponse.zero = .ok response) :
    Read L d =
        ⟨(L.StateSet none ⟨response.Results.map (liftRecord L)⟩).1,
          Diagnostics.Append [] (L.StateSet none ⟨response.Results.map (liftRecord L)⟩).2⟩ ∧
      (∀ d' : manufacturersDataSource L,
        L.DcimManufacturersListWithResponse d'.client.Client L.emptyParams =
          L.DcimManufacturersListWithResponse d.client.Client L.emptyParams →
        Read L d' = Read L d) ∧
      (∀ (d' : manufacturersDataSource L) (rsp' : DcimManufacturersListResponse)
        (response' : apiResponse),
        L.DcimManufacturersListWithResponse d'.client.Client L.emptyParams = .ok rsp' →
        json.Unmarshal rsp'.Body apiResponse.zero = .ok response' →
        response'.Results = response.Results →
        Read L d' = Read L d) := by
  refine ⟨Read_decoded L d rsp response hcall hdec, ?_, ?_⟩
  · intro d' h
    rw [Read_decoded L d rsp response hcall hdec,
      Read_decoded L d' rsp response (h.trans hcall) hdec]
  · intro d' rsp' response' hcall' hdec' hres
    rw [Read_decoded L d rsp response hcall hdec, Read_decoded L d' rsp' response' hcall' hdec',
      hres]

theorem Read_uses_one_page_witness :
    Read (pagedLib twoPages) (pagedSource twoPages (twoPages.take 1))
        = Read (pagedLib twoPages) (pagedSource twoPages twoPages) ∧
      Read (pagedLib twoPages) (pagedSource twoPages [pageJson 1 .null [acmeJson]])
        = Read (pagedLib twoPages) (pagedSource twoPages twoPages) :=
  ⟨(Read_uses_one_page (pagedLib twoPages) (pagedSource twoPages twoPages)
      ⟨.json (pageJson 2
        (.str "https://nb.example.com/api/dcim/manufacturers/?limit=1&offset=1") [acmeJson]),
        ⟨200⟩⟩
      { happyEnvelope with
        Next := .str "https://nb.example.com/api/dcim/manufacturers/?limit=1&offset=1"
        Count := 2 } rfl rfl).2.1 (pagedSource twoPages (twoPages.take 1)) rfl,
    (Read_uses_one_page (pagedLib twoPages) (pagedSource twoPages twoPages)
      ⟨.json (pageJson 2
        (.str "https://nb.example.com/api/dcim/manufacturers/?limit=1&offset=1") [acmeJson]),
        ⟨200⟩⟩
      { happyEnvelope with
        Next := .str "https://nb.example.com/api/dcim/manufacturers/?limit=1&offset=1"
        Count := 2 } rfl rfl).2.2 (pagedSource twoPages [pageJson 1 .null [acmeJson]])
      ⟨.json (pageJson 1 .null [acmeJson]), ⟨200⟩⟩ happyEnvelope rfl rfl rfl⟩

/-- C8, on the code: a reply with status 401 that the list call returns without
an error is decoded like any other. With the body of an authentication
failure, an object without `results`, `Read` reports nothing and publishes an
empty list, just as for the same body with status 200; with a body that is
the JSON string `Invalid token.`, or that is not JSON at all, its one
diagnostic has the summary `Failed to serialize`, and a detail without the
status code. -/
theorem Read_status_401_is_decoded :
    Read (scriptedLib (replyOf 401 (.json invalidTokenJson)))
        (dataSourceOf (replyOf 401 (.json invalidTokenJson)))
      = Read (scriptedLib (replyOf 200 (.json invalidTokenJson)))
        (dataSourceOf (replyOf 200 (.json invalidTokenJson))) ∧
    (Read (scriptedLib (replyOf 401 (.json invalidTokenJson)))
        (dataSourceOf (replyOf 401 (.json invalidTokenJson)))).Diagnostics = [] ∧
      (Read (scriptedLib (replyOf 401 (.json invalidTokenJson)))
        (dataSourceOf (replyOf 401 (.json invalidTokenJson)))).State.map
          (fun st => st.Manufacturers.length) = some 0 ∧
      (Read (scriptedLib (replyOf 401 (.json (.str "Invalid token."))))
        (dataSourceOf (replyOf 401 (.json (.str "Invalid token."))))).Diagnostics
        = [⟨Severity.Error, none, "Failed to serialize",
            "json: cannot unmarshal string into Go value of type provider.apiResponse"⟩] ∧
      (Read (scriptedLib (replyOf 401 (.invalid "invalid character I looking for beginning of value")))
        (dataSourceOf (replyOf 401 (.invalid "invalid character I looking for beginning of value")))
        ).Diagnostics
        = [⟨Severity.Error, none, "Failed to serialize",
            "invalid character I looking for beginning of value"⟩] :=
  ⟨rfl, rfl, rfl, rfl, rfl⟩

/-- C9: a failed read publishes nothing and reports exactly one diagnostic.
If the list call returns an error, the response of `Read` is the one error
with summary `failed to get manufacturers list` and the error text as detail,
and no state; if the call returns a reply whose body does not decode into the
envelope, in particular a body that is not well-formed JSON, the response is
the one error with summary `Failed to serialize` and the decoder's error text
as detail, and no state. -/
theorem Read_failure_single_diagnostic (L : Lib) (d : manufacturersDataSource L) :
    (∀ e : String,
        L.DcimManufacturersListWithResponse d.client.Client L.emptyParams = .error e →
        Read L d = ⟨none, [⟨Severity.Error, none, "failed to get manufacturers list", e⟩]⟩) ∧
      (∀ (rsp : DcimManufacturersListResponse) (e : String),
        L.DcimManufacturersListWithResponse d.client.Client L.emptyParams = .ok rsp →
        json.Unmarshal rsp.Body apiResponse.zero = .error e →
        Read L d = ⟨none, [⟨Severity.Error, none, "Failed to serialize", e⟩]⟩) ∧
      (∀ (rsp : DcimManufacturersListResponse) (msg : String),
        L.DcimManufacturersListWithResponse d.client.Client L.emptyParams = .ok rsp →
        rsp.Body = .invalid msg →
        Read L d = ⟨none, [⟨Severity.Error, none, "Failed to serialize", msg⟩]⟩) := by
  refine ⟨fun e h => Read_call_error L d e h, fun rsp e h h' => Read_decode_error L d rsp e h h',
    fun rsp msg h h' => Read_decode_error L d rsp msg h ?_⟩
  rw [h']
  rfl

theorem Read_failure_single_diagnostic_witness :
    Read (scriptedLib (.error "dial tcp: connection refused"))
        (dataSourceOf (.error "dial tcp: connection refused"))
        = ⟨none, [⟨Severity.Error, none, "failed to get manufacturers list",
            "dial tcp: connection refused"⟩]⟩ ∧
      Read (scriptedLib (replyOf 200 (.invalid "invalid character o in literal null (expecting u)")))
        (dataSourceOf (replyOf 200 (.invalid "invalid character o in literal null (expecting u)")))
        = ⟨none, [⟨Severity.Error, none, "Failed to serialize",
            "invalid character o in literal null (expecting u)"⟩]⟩ ∧
      Read (scriptedLib (replyOf 200 (.json (.arr []))))
        (dataSourceOf (replyOf 200 (.json (.arr []))))
        = ⟨none, [⟨Severity.Error, none, "Failed to serialize",
            "json: cannot unmarshal array into Go value of type provider.apiResponse"⟩]⟩ :=
  ⟨(Read_failure_single_diagnostic (scriptedLib (.error "dial tcp: connection refused"))
      (dataSourceOf (.error "dial tcp: connection refused"))).1 _ rfl,
    (Read_failure_single_diagnostic
      (scriptedLib (replyOf 200 (.invalid "invalid character o in literal null (expecting u)")))
      (dataSourceOf (replyOf 200 (.invalid "invalid character o in literal null (expecting u)")))
      ).2.2 ⟨.invalid "invalid character o in literal null (expecting u)", ⟨200⟩⟩ _ rfl rfl,
    (Read_failure_single_diagnostic (scriptedLib (replyOf 200 (.json (.arr []))))
      (dataSourceOf (replyOf 200 (.json (.arr []))))).2.1 ⟨.json (.arr []), ⟨200⟩⟩ _ rfl rfl⟩

end Nautobot
